import Mathlib

/- Verification development for the groff device-output renderer in
   groff2html.py: a shallow embedding of the generator `tokenizer` and of the
   `TextOutput` interpreter class, followed by theorems settling the spec's
   claims about them.  Python integers are modelled as `Int` (Python `//` is
   `Int.fdiv`, Python `%` is `Int.fmod`, both floor-based as in CPython);
   Python truthiness tests on `None`-or-int and `None`-or-string attributes
   are modelled explicitly; Python exceptions are the constructors of `Err`. -/

/-- argument value carried by a token: the tokenizer produces Python ints or
strings depending on the command's declared argument type. -/
inductive Arg where
  | i (n : Int)
  | s (s : String)
  deriving DecidableEq, Repr

/-- token emitted by the tokenizer: a command name plus its argument list,
mirroring the Python `yield cmd, args`. -/
structure Token where
  cmd : String
  args : List Arg
  deriving DecidableEq, Repr

/-- failure outcomes of the tokenizer and interpreter.  The first group are
the `TokenizingError` messages, the second the `ParseError` messages, the
rest are the Python runtime exceptions the code can hit, plus fuel
exhaustion of the loop model (the Python `while True` has no fuel). -/
inductive Err where
  | unknownCmd (c : Char)      -- TokenizingError: Unknown cmd ...
  | unsupportedColor           -- TokenizingError: Unsupported color type
  | drawingUnsupported         -- TokenizingError: Drawing command ... not implemented yet
  | intArgRequired             -- TokenizingError: Command ... takes an integer as its argument
  | argTypeUnsupported         -- TokenizingError: Argument type not implemented yet for cmd ...
  | onlyUtf8                   -- ParseError: Only the utf8 device is supported
  | deviceTwice                -- ParseError: cannot set the device twice
  | resolutionTwice            -- ParseError: cannot set the resolution twice
  | horizQuantum               -- ParseError: can only move multiples of horiz_motion
  | vertQuantum                -- ParseError: can only move multiples of vert_motion
  | bigN                       -- ParseError: N this big is not supported yet
  | charUnsupported            -- ParseError: Character ... not supported for C yet
  | deviceFontUnsupported      -- ParseError: unsupported device font pair
  | fontSizeSwitch             -- ParseError: switching font size not yet supported
  | unhandled                  -- raise NotImplemented(cmd) in Outputter.__iter__
  | indexError                 -- Python IndexError (indexing an empty buffer)
  | attributeError             -- Python AttributeError (calling .end() on None)
  | typeError                  -- Python TypeError (arithmetic on None, bad arg kind)
  | zeroDiv                    -- Python ZeroDivisionError (modulus by a zero quantum)
  | fuel                       -- loop fuel exhausted in the model
  deriving DecidableEq, Repr

/-- render state of one `TextOutput` instance, field for field as set up by
`TextOutput.__init__`.  Attributes initialised to Python `None` are
`Option` values. -/
structure RenderState where
  initial_typesetter : Option String
  resolution : Option Int
  horiz_motion : Option Int
  vert_motion : Option Int
  page : Option Int
  device_font : Option Int
  font : Option Int
  font_size : Option Int
  horizontal_increment : Int
  line : Int
  reset_column : Bool
  deriving DecidableEq, Repr

/-- state built by `TextOutput.__init__`. -/
def initState : RenderState :=
  { initial_typesetter := none
    resolution := none
    horiz_motion := none
    vert_motion := none
    page := none
    device_font := none
    font := none
    font_size := none
    horizontal_increment := 0
    line := 0
    reset_column := false }

/-- Python truthiness of a `None`-or-int attribute: `None` and `0` are falsy. -/
def pyTruthyInt : Option Int → Bool
  | none => false
  | some n => n != 0

/-- Python truthiness of a `None`-or-string attribute: `None` and the empty
string are falsy. -/
def pyTruthyStr : Option String → Bool
  | none => false
  | some s => s != ""

/-- Python string repetition `c * n` for a single character: a negative or
zero count yields the empty string (`Int.toNat` clamps at 0). -/
def pyStrRepeat (c : Char) (n : Int) : String :=
  String.mk (List.replicate n.toNat c)

/-- lookup in `device_font_map`: the three accepted (position, style) pairs,
mapped to LINK_FONT = 0, BOLD_FONT = 1, UNDERLINE_FONT = 2. -/
def device_font_map (pos style : String) : Option Int :=
  if pos = "1" ∧ style = "R" then some 0
  else if pos = "3" ∧ style = "B" then some 1
  else if pos = "2" ∧ style = "I" then some 2
  else none

/- Methods of the `TextOutput` class, one Lean definition per Python method.
   Each takes the current state and the token's argument list and returns an
   error, `none` for the stop signal (`raise StopIteration`, ending the
   render sequence), or the new state and the emitted fragment.  An
   argument list whose shape a method's `args[i]` accesses do not fit —
   unreachable from the tokenizer — surfaces as the Python exception it
   would raise (IndexError on a missing argument, TypeError on arithmetic
   against an argument of the wrong type). -/

namespace TextOutput

/-- method t: reset previous-glyph-width to 0 and emit the text verbatim. -/
def t (st : RenderState) (args : List Arg) :
    Except Err (Option (RenderState × String)) :=
  match args with
  | .s x :: _ => .ok (some ({ st with horizontal_increment := 0 }, x))
  | .i _ :: _ => .error .typeError
  | [] => .error .indexError

/-- method h (and its alias H): quantized horizontal motion, compensated by
the previous-glyph-width counter, suppressed once after a column reset. -/
def h (st : RenderState) (args : List Arg) :
    Except Err (Option (RenderState × String)) :=
  match args with
  | .i a :: _ =>
    match st.horiz_motion with
    | none => .error .typeError
    | some q =>
      if q = 0 then .error .zeroDiv
      else if a.fmod q ≠ 0 then .error .horizQuantum
      else if st.reset_column then .ok (some ({ st with reset_column := false }, ""))
      else .ok (some (st, pyStrRepeat ' ' (a.fdiv q - st.horizontal_increment)))
  | .s _ :: _ => .error .typeError
  | [] => .error .indexError

/-- method noop (aliased as n, xi, xF, md, DFd, w, xt): emit nothing. -/
def noop (st : RenderState) (_ : List Arg) :
    Except Err (Option (RenderState × String)) :=
  .ok (some (st, ""))

/-- method N: numeric character code, ASCII (32,127) or Latin-1 (160,256);
previous-glyph-width becomes 1. -/
def N (st : RenderState) (args : List Arg) :
    Except Err (Option (RenderState × String)) :=
  match args with
  | .i a :: _ =>
    if a > 32 ∧ a < 127 then
      .ok (some ({ st with horizontal_increment := 1 }, String.mk [Char.ofNat a.toNat]))
    else if a > 160 ∧ a < 256 then
      .ok (some ({ st with horizontal_increment := 1 }, String.mk [Char.ofNat a.toNat]))
    else .error .bigN
  | .s _ :: _ => .error .typeError
  | [] => .error .indexError

/-- method C: named glyph via the special-character table;
previous-glyph-width becomes the mapped string's length. -/
def C (chars : String → Option String) (st : RenderState) (args : List Arg) :
    Except Err (Option (RenderState × String)) :=
  match args with
  | .s x :: _ =>
    match chars x with
    | none => .error .charUnsupported
    | some m => .ok (some ({ st with horizontal_increment := (m.length : Int) }, m))
  | .i _ :: _ => .error .charUnsupported
  | [] => .error .indexError

/-- method xT: record the typesetter once; only "utf8" is accepted; the
repeat check is Python truthiness of the recorded identifier. -/
def xT (st : RenderState) (args : List Arg) :
    Except Err (Option (RenderState × String)) :=
  match args with
  | .s x :: _ =>
    if pyTruthyStr st.initial_typesetter then .error .deviceTwice
    else if x ≠ "utf8" then .error .onlyUtf8
    else .ok (some ({ st with initial_typesetter := some x }, ""))
  | .i _ :: _ => .error .typeError
  | [] => .error .indexError

/-- method xr: record resolution and quanta and initialise the line
position to the vertical quantum; the repeat check is Python truthiness of
the recorded resolution value. -/
def xr (st : RenderState) (args : List Arg) :
    Except Err (Option (RenderState × String)) :=
  match args with
  | .i a :: .i b :: .i c :: _ =>
    if pyTruthyInt st.resolution then .error .resolutionTwice
    else
      .ok (some ({ st with resolution := some a, horiz_motion := some b,
                           vert_motion := some c, line := c }, ""))
  | _ => .error .indexError

/-- method p: record the page number and reset the line position to 0. -/
def p (st : RenderState) (args : List Arg) :
    Except Err (Option (RenderState × String)) :=
  match args with
  | .i a :: _ => .ok (some ({ st with page := some a, line := 0 }, ""))
  | .s _ :: _ => .error .typeError
  | [] => .error .indexError

/-- method xf: device font selection against the three-pair map. -/
def xf (st : RenderState) (args : List Arg) :
    Except Err (Option (RenderState × String)) :=
  match args with
  | .s a :: .s b :: _ =>
    match device_font_map a b with
    | none => .error .deviceFontUnsupported
    | some d => .ok (some ({ st with device_font := some d }, ""))
  | _ => .error .indexError

/-- method f: record the font id. -/
def f (st : RenderState) (args : List Arg) :
    Except Err (Option (RenderState × String)) :=
  match args with
  | .i a :: _ => .ok (some ({ st with font := some a }, ""))
  | .s _ :: _ => .error .typeError
  | [] => .error .indexError

/-- method s: record the font size; a conflicting later value is fatal only
when the recorded size is truthy (nonzero). -/
def s (st : RenderState) (args : List Arg) :
    Except Err (Option (RenderState × String)) :=
  match args with
  | .i a :: _ =>
    if pyTruthyInt st.font_size ∧ st.font_size ≠ some a then .error .fontSizeSwitch
    else .ok (some ({ st with font_size := some a }, ""))
  | .s _ :: _ => .error .typeError
  | [] => .error .indexError

/-- method V: quantized vertical motion; emits the newline-count difference
of the quantized positions and records the new line position. -/
def V (st : RenderState) (args : List Arg) :
    Except Err (Option (RenderState × String)) :=
  match args with
  | .i a :: _ =>
    match st.vert_motion with
    | none => .error .typeError
    | some q =>
      if q = 0 then .error .zeroDiv
      else if a.fmod q ≠ 0 then .error .vertQuantum
      else
        .ok (some ({ st with line := a }, pyStrRepeat '\n' (a.fdiv q - st.line.fdiv q)))
  | .s _ :: _ => .error .typeError
  | [] => .error .indexError

/-- method xX: literal device-control passthrough; the two column-reset
devtag payloads arm the column-reset flag; everything else is a no-op. -/
def xX (st : RenderState) (args : List Arg) :
    Except Err (Option (RenderState × String)) :=
  match args with
  | .s x :: _ =>
    if x = "devtag:.col 1\n" ∨ x = "devtag:.eo.h\n" then
      .ok (some ({ st with reset_column := true }, ""))
    else .ok (some (st, ""))
  | .i _ :: _ => .ok (some (st, ""))
  | [] => .error .indexError

/-- method xs: end the render sequence (the stop signal; not an error). -/
def xs (_ : RenderState) (_ : List Arg) :
    Except Err (Option (RenderState × String)) :=
  .ok none

end TextOutput

/-- one dispatch round of `Outputter.__iter__` specialised to `TextOutput`:
`getattr(self, cmd)(args)` resolved over the method (and method-alias)
names of the class; a command with no matching attribute raises.  `chars`
is the read-only special-character table imported from the generated
`special_chars.py` (outside the core source, hence a parameter). -/
def step (chars : String → Option String) (st : RenderState) (tok : Token) :
    Except Err (Option (RenderState × String)) :=
  match tok.cmd with
  | "t" => TextOutput.t st tok.args
  | "h" | "H" => TextOutput.h st tok.args
  | "n" | "xi" | "xF" | "md" | "DFd" | "w" | "xt" | "noop" =>
    TextOutput.noop st tok.args
  | "N" => TextOutput.N st tok.args
  | "C" => TextOutput.C chars st tok.args
  | "xT" => TextOutput.xT st tok.args
  | "xr" => TextOutput.xr st tok.args
  | "p" => TextOutput.p st tok.args
  | "xf" => TextOutput.xf st tok.args
  | "f" => TextOutput.f st tok.args
  | "s" => TextOutput.s st tok.args
  | "V" => TextOutput.V st tok.args
  | "xX" => TextOutput.xX st tok.args
  | "xs" => TextOutput.xs st tok.args
  | _ => .error .unhandled

/-- run of `Outputter.__iter__` over a token list: collects the emitted
fragments in order and the final state; stops early (successfully) when a
method raises the `StopIteration` stop signal. -/
def runTokens (chars : String → Option String) (st : RenderState) :
    List Token → Except Err (List String × RenderState)
  | [] => .ok ([], st)
  | tok :: rest =>
    match step chars st tok with
    | .error e => .error e
    | .ok none => .ok ([], st)
    | .ok (some (st', out)) =>
      match runTokens chars st' rest with
      | .error e => .error e
      | .ok (outs, fin) => .ok (out :: outs, fin)

/-- rendered document: the concatenation, in order, of the fragments that a
fresh `TextOutput` emits for the given tokens (what `__main__` writes out). -/
def render (chars : String → Option String) (toks : List Token) : Except Err String :=
  match runTokens chars initState toks with
  | .error e => .error e
  | .ok (outs, _) => .ok (String.join outs)

/-- empty special-character table, used to instantiate theorems whose token
sequences never reach the `C` command. -/
def noChars : String → Option String := fun _ => none

/- Tokenizer embedding.  The Python generator `tokenizer` reads the input
   through a buffered window refilled 50 characters at a time
   (`buf += fd.read(50)`), and runs a `while True` loop with two states,
   CMD (looking for a command) and ARG (collecting arguments), matching the
   regexes CHAR_AND_SPACES, WORD, WORD_AND_SPACES and LINE against the
   start of the buffer.  The input is the already-decoded character stream
   (the `encoding` parameter only configures the `TextIOWrapper`). -/

/-- Python `\s` under `re.ASCII`: space, tab, newline, carriage return,
vertical tab, form feed. -/
def pySpace (c : Char) : Bool :=
  c == ' ' || c == '\t' || c == '\n' || c == '\r' || c == '\x0B' || c == '\x0C'

/-- length of the leading run of whitespace characters. -/
def spacesLen : List Char → Nat
  | [] => 0
  | c :: t => if pySpace c then spacesLen t + 1 else 0

/-- length of the leading run of non-whitespace characters. -/
def wordLen : List Char → Nat
  | [] => 0
  | c :: t => if pySpace c then 0 else wordLen t + 1

/-- match end of `CHAR_AND_SPACES` (regex one non-space, then spaces) against
the start of the buffer; `none` when the regex does not match. -/
def charAndSpaces (b : List Char) : Option Nat :=
  match b with
  | [] => none
  | c :: t => if pySpace c then none else some (1 + spacesLen t)

/-- match end of `WORD` (regex one-or-more non-space) against the start of
the buffer. -/
def wordMatch (b : List Char) : Option Nat :=
  if wordLen b = 0 then none else some (wordLen b)

/-- match end of `WORD_AND_SPACES` (a word, then spaces) against the start
of the buffer. -/
def wordAndSpaces (b : List Char) : Option Nat :=
  if wordLen b = 0 then none else some (wordLen b + spacesLen (b.drop (wordLen b)))

/-- index of the first newline in the buffer (`buf.find` returns -1, modelled
as `none`). -/
def findNl : List Char → Option Nat
  | [] => none
  | c :: t => if c == '\n' then some 0 else (findNl t).map (· + 1)

/-- match end of `LINE` (regex everything up to and including the first
newline) against the start of the buffer. -/
def lineMatch (b : List Char) : Option Nat :=
  (findNl b).map (· + 1)

/-- declared argument value type of a command: Python `int`, Python `str`,
or `None` (no validator, zero-argument commands). -/
inductive ArgKind where
  | tInt
  | tStr
  | tNone
  deriving DecidableEq, Repr

/-- the `arg_types` dict: per command, its argument type and count. -/
def arg_types : List (String × ArgKind × Nat) :=
  [("C", .tStr, 1), ("c", .tStr, 1), ("f", .tInt, 1), ("H", .tInt, 1),
   ("h", .tInt, 1), ("N", .tInt, 1), ("p", .tInt, 1), ("s", .tInt, 1),
   ("n", .tInt, 2), ("mc", .tInt, 3), ("mg", .tInt, 1), ("mk", .tInt, 4),
   ("mr", .tInt, 3), ("t", .tStr, 1), ("v", .tInt, 1), ("V", .tInt, 1),
   ("u", .tStr, 2),
   ("xF", .tStr, 1), ("xf", .tStr, 2), ("xH", .tInt, 1), ("xi", .tNone, 0),
   ("xp", .tNone, 0), ("xr", .tInt, 3), ("xS", .tInt, 1), ("xs", .tNone, 0),
   ("xt", .tNone, 0), ("xT", .tStr, 1), ("xu", .tInt, 1), ("xX", .tStr, 0)]

/-- dictionary lookup `arg_types[cmd]` (`none` models `cmd not in arg_types`). -/
def argSpec (c : String) : Option (ArgKind × Nat) :=
  (arg_types.find? (fun p => p.1 == c)).map (fun p => p.2)

/-- numeric value of a nonempty all-digit character list. -/
def digitsVal (l : List Char) : Option Nat :=
  if l ≠ [] ∧ l.all Char.isDigit then
    some (l.foldl (fun acc c => acc * 10 + (c.toNat - 48)) 0)
  else none

/-- Python `int(word)` on a whitespace-free word: an optional sign followed
by decimal digits; anything else raises `ValueError` (`none` here). -/
def parsePyInt (w : List Char) : Option Int :=
  match w with
  | '-' :: ds => (digitsVal ds).map (fun n => -(n : Int))
  | '+' :: ds => (digitsVal ds).map (fun n => (n : Int))
  | ds => (digitsVal ds).map (fun n => (n : Int))

/-- the two lexer states, `CMD = 0` and `ARG = 1`. -/
inductive TkState where
  | cmdS
  | argS
  deriving DecidableEq, Repr

/-- loop state of the tokenizer generator: the buffer, the unread remainder
of the stream, the lexer state, the pending command and arguments, and the
`grow` flag requesting a buffer refill. -/
structure TokSt where
  buf : List Char
  rest : List Char
  state : TkState
  cmd : String
  args : List Arg
  grow : Bool
  deriving DecidableEq, Repr

/-- buffer refill at the top of the loop: `if grow or len(buf) < 50:
buf += fd.read(50)`, then `grow = False`. -/
def refill (ts : TokSt) : TokSt :=
  if ts.grow ∨ ts.buf.length < 50 then
    { ts with buf := ts.buf ++ ts.rest.take 50, rest := ts.rest.drop 50, grow := false }
  else ts

/-- result of the CMD block of one loop iteration: new state, token yielded
by the literal commands (`md`, `w`, `DFd`), and whether a `continue` was
executed (skipping the ARG block of the same iteration). -/
structure CmdOut where
  ts : TokSt
  tok : Option Token
  skip : Bool
  deriving Repr

/-- the `if state == CMD:` block of one iteration: comment stripping, then
command recognition.  Faithful to the source, including the comment branch
quirks: `if not end` with `end = buf.find('\n')` is only true when the
newline is at index 0 (impossible here), and when `find` returns -1 the
slice `buf[end+1:]` is `buf[0:]`, leaving the buffer unchanged so that the
`#` falls through to command dispatch. -/
def cmdBlock (ts0 : TokSt) : Except Err CmdOut :=
  let com : Sum TokSt TokSt :=
    if ts0.buf.head? = some '#' then
      match findNl ts0.buf with
      | some 0 => .inl { ts0 with grow := true }
      | some i => .inr { ts0 with buf := ts0.buf.drop (i + 1) }
      | none => .inr ts0
    else .inr ts0
  match com with
  | .inl ts => .ok ⟨ts, none, true⟩
  | .inr ts =>
    match ts.buf with
    | [] => .error .indexError
    | c :: tail =>
      if c ∈ (['C', 'c', 'f', 'H', 'h', 'N', 'p', 's', 'n', 't', 'V', 'v',
               'u', 'x'] : List Char) then
        match charAndSpaces ts.buf with
        | none => .ok ⟨{ ts with grow := true }, none, true⟩
        | some e =>
          .ok ⟨{ ts with
                 cmd := String.mk [c],
                 buf := ts.buf.drop e,
                 state := .argS }, none, false⟩
      else if c = 'm' then
        match tail with
        | [] => .error .indexError
        | c2 :: _ =>
          let pick : Except Err (TokSt × Option Token) :=
            if c2 = 'c' then .ok ({ ts with cmd := "mc", state := .argS }, none)
            else if c2 = 'd' then .ok ({ ts with cmd := "" }, some ⟨"md", []⟩)
            else if c2 = 'g' then .ok ({ ts with cmd := "mg", state := .argS }, none)
            else if c2 = 'k' then .ok ({ ts with cmd := "mk", state := .argS }, none)
            else if c2 = 'r' then .ok ({ ts with cmd := "mr", state := .argS }, none)
            else .error .unsupportedColor
          match pick with
          | .error e => .error e
          | .ok (ts1, tk) =>
            match wordAndSpaces ts1.buf with
            | none => .ok ⟨{ ts1 with grow := true }, tk, true⟩
            | some e => .ok ⟨{ ts1 with buf := ts1.buf.drop e }, tk, false⟩
      else if c = 'w' then
        .ok ⟨{ ts with cmd := "", buf := tail }, some ⟨"w", []⟩, false⟩
      else if c = 'D' then
        if ts.buf.take 3 = ['D', 'F', 'd'] then
          .ok ⟨{ ts with cmd := "", buf := ts.buf.drop 4 }, some ⟨"DFd", []⟩, false⟩
        else .error .drawingUnsupported
      else .error (.unknownCmd c)

/-- the `if state == ARG:` block of one iteration: match a word, validate it
against `arg_types` (or extend an `x` command by the word's first letter),
consume the word and trailing spaces, consume the rest of the line for
`xX`, and yield the token once the declared count is reached. -/
def argBlock (ts0 : TokSt) : Except Err (TokSt × Option Token) :=
  match wordMatch ts0.buf with
  | none => .ok ({ ts0 with grow := true }, none)
  | some wlen =>
    let w := ts0.buf.take wlen
    let upd : Except Err TokSt :=
      match argSpec ts0.cmd with
      | some (kind, count) =>
        let withArgs : Except Err (List Arg) :=
          match kind with
          | .tInt =>
            match parsePyInt w with
            | none => .error .intArgRequired
            | some n => .ok (ts0.args ++ [.i n])
          | .tStr => .ok (ts0.args ++ [.s (String.mk w)])
          | .tNone => .ok ts0.args
        match withArgs with
        | .error e => .error e
        | .ok args1 =>
          .ok { ts0 with
                args := args1,
                state := if args1.length = count then .cmdS else ts0.state }
      | none =>
        if ts0.cmd = "x" then
          match ts0.buf with
          | [] => .error .indexError
          | c :: _ =>
            let cmd1 := "x" ++ String.mk [c]
            .ok { ts0 with
                  cmd := cmd1,
                  state := if (argSpec cmd1).map (fun p => p.2) = some 0 then
                    .cmdS else ts0.state }
        else .error .argTypeUnsupported
    match upd with
    | .error e => .error e
    | .ok ts1 =>
      match wordAndSpaces ts1.buf with
      | none => .ok ({ ts1 with grow := true }, none)
      | some e =>
        let ts2 := { ts1 with buf := ts1.buf.drop e }
        let ts3e : Except Err TokSt :=
          if ts2.cmd = "xX" then
            match lineMatch ts2.buf with
            | none => .error .attributeError
            | some llen =>
              .ok { ts2 with
                    args := ts2.args ++ [.s (String.mk (ts2.buf.take llen))],
                    buf := ts2.buf.drop llen }
          else .ok ts2
        match ts3e with
        | .error e => .error e
        | .ok ts3 =>
          if ts3.state = .cmdS then
            .ok ({ ts3 with cmd := "", args := [] }, some ⟨ts3.cmd, ts3.args⟩)
          else .ok (ts3, none)

/-- body of one `while True` iteration after the refill and emptiness check:
the CMD block (when in CMD state) followed, unless a `continue` fired, by
the ARG block (when then in ARG state). -/
def iterStep (ts : TokSt) : Except Err (TokSt × Option Token) :=
  if ts.state = .cmdS then
    match cmdBlock ts with
    | .error e => .error e
    | .ok ⟨ts1, tk1, skip⟩ =>
      if skip then .ok (ts1, tk1)
      else if ts1.state = .argS then
        match argBlock ts1 with
        | .error e => .error e
        | .ok (ts2, tk2) => .ok (ts2, tk1.orElse (fun _ => tk2))
      else .ok (ts1, tk1)
  else
    argBlock ts

/-- the tokenizer's `while True` loop, fuelled: refill the buffer, stop when
it stays empty (`break`, ending the generator), otherwise run one iteration
and collect any yielded token. -/
def tokLoop : Nat → TokSt → Except Err (List Token)
  | 0, _ => .error .fuel
  | n + 1, ts =>
    let ts1 := refill ts
    if ts1.buf.length = 0 then .ok []
    else
      match iterStep ts1 with
      | .error e => .error e
      | .ok (ts2, tk) =>
        match tokLoop n ts2 with
        | .error e => .error e
        | .ok more => .ok (tk.toList ++ more)

/-- the `tokenizer` generator, run to completion on a whole input stream:
start with an empty buffer, `state = CMD`, no pending command or arguments,
and an initial refill. -/
def tokenizer (fuel : Nat) (input : List Char) : Except Err (List Token) :=
  tokLoop fuel
    { buf := [], rest := input, state := .cmdS, cmd := "", args := [], grow := true }

/-- C1: for the token sequence set-typesetter("utf8"), set-resolution(240,24,40),
literal-text("Hello"), vertical-motion(80), literal-text("World"),
end-of-output, the interpreter's emitted fragments concatenate to exactly
"Hello", one newline and "World" (the line position advances from 40 to 80,
exactly one vertical quantum), with no error raised. -/
theorem c1_hello_world (chars : String → Option String) :
    render chars [⟨"xT", [.s "utf8"]⟩, ⟨"xr", [.i 240, .i 24, .i 40]⟩,
      ⟨"t", [.s "Hello"]⟩, ⟨"V", [.i 80]⟩, ⟨"t", [.s "World"]⟩, ⟨"xs", []⟩] =
      .ok "Hello\nWorld" := rfl

/-- C2 counterexample: the input stream "f" is exhausted while the tokenizer
is still collecting the one declared integer argument of the f command, yet
the tokenizer raises nothing: it ends the token sequence silently. -/
theorem c2_counterexample :
    tokenizer 20 ("f".toList) = .ok [] ∧ argSpec "f" = some (.tInt, 1) :=
  ⟨rfl, rfl⟩

/-- C2 amended: an input stream that is exhausted while the tokenizer is
still collecting arguments for a pending command (fewer arguments gathered
than the declared count) makes the tokenizer end the token sequence
silently: the loop breaks with no error and the pending command is never
emitted as a (truncated) token. -/
theorem c2_silent_truncation (fuel : Nat) (cmd : String) (args : List Arg)
    (g : Bool) (kind : ArgKind) (count : Nat)
    (hspec : argSpec cmd = some (kind, count)) (hfew : args.length < count) :
    tokLoop (fuel + 1)
      { buf := [], rest := [], state := .argS, cmd := cmd, args := args, grow := g } =
      .ok [] := by
  simp [tokLoop, refill]

/-- C2 witness: the silent-truncation theorem applied to the pending f
command of the stream "f", with no argument collected yet. -/
theorem c2_silent_truncation_witness :
    tokLoop 1 { buf := [], rest := [], state := .argS, cmd := "f",
                args := [], grow := false } = .ok [] :=
  c2_silent_truncation 0 "f" [] false .tInt 1 rfl (by decide)

/-- C3 counterexample: when the first set-resolution call records the
resolution value 0, that falsy value lets a second set-resolution call
through without any error — the run below processes xr twice and
succeeds. -/
theorem c3_counterexample :
    render noChars [⟨"xr", [.i 0, .i 24, .i 40]⟩, ⟨"xr", [.i 0, .i 24, .i 40]⟩] =
      .ok "" := rfl

/-- C3 amended: a second set-typesetter command always raises a semantic
failure (a first successful call records the truthy identifier "utf8"); a
second set-resolution command raises a semantic failure whenever the
recorded resolution value is truthy (nonzero), but when the first call
recorded resolution value 0 a later call is treated as a first call again
and re-records resolution and quanta without error. -/
theorem c3_second_initialization (chars : String → Option String) :
    (∀ (st : RenderState) (x : String),
      pyTruthyStr st.initial_typesetter = true →
      step chars st ⟨"xT", [.s x]⟩ = .error .deviceTwice) ∧
    (∀ (st : RenderState) (a b c : Int),
      pyTruthyInt st.resolution = true →
      step chars st ⟨"xr", [.i a, .i b, .i c]⟩ = .error .resolutionTwice) ∧
    (∀ (st : RenderState) (a b c : Int),
      st.resolution = some 0 →
      step chars st ⟨"xr", [.i a, .i b, .i c]⟩ =
        .ok (some ({ st with resolution := some a, horiz_motion := some b,
                             vert_motion := some c, line := c }, ""))) := by
  refine ⟨?_, ?_, ?_⟩
  · intro st x h
    simp [step, TextOutput.xT, h]
  · intro st a b c h
    simp [step, TextOutput.xr, h]
  · intro st a b c h
    simp [step, TextOutput.xr, h, pyTruthyInt]

/-- C3 witness: a second set-typesetter call with the same argument as the
first still fails with the duplicate-device error. -/
theorem c3_second_initialization_witness :
    step noChars { initState with initial_typesetter := some "utf8" }
      ⟨"xT", [.s "utf8"]⟩ = .error .deviceTwice :=
  (c3_second_initialization noChars).1
    { initState with initial_typesetter := some "utf8" } "utf8" rfl

/-- C4: processing the end-of-output token xs terminates the render
sequence successfully — the result is a success, not an error, and it is
independent of whatever tokens follow, so none of them are consumed. -/
theorem c4_end_of_output (chars : String → Option String) (st : RenderState)
    (rest : List Token) :
    runTokens chars st (⟨"xs", []⟩ :: rest) = .ok ([], st) := rfl

/-- C5 evaluation at the failing input: with two consecutive comment lines
the tokenizer strips the first one and then re-dispatches on the second
without re-checking for comments, raising the Unknown-cmd failure on the
leading number sign; the same stream with the comment lines removed
tokenizes cleanly; and a comment as the last line of the input crashes on
the emptied buffer. -/
theorem c5_comment_failures :
    tokenizer 30 ("#a\n#b\nt x\n".toList) = .error (.unknownCmd '#') ∧
    tokenizer 30 ("t x\n".toList) = .ok [⟨"t", [.s "x"]⟩] ∧
    tokenizer 30 ("t x\n# done\n".toList) = .error .indexError :=
  ⟨rfl, rfl, rfl⟩

/-- C9 counterexample: a first font-size call recording size 0 followed by a
call with the different value 5 raises no error and silently re-records the
size — the recorded-0 case of the claim fails on the code. -/
theorem c9_counterexample :
    runTokens noChars initState [⟨"s", [.i 0]⟩, ⟨"s", [.i 5]⟩] =
      .ok (["", ""], { initState with font_size := some 5 }) := rfl

/-- C9 amended: the first font-size call records the size and succeeds; a
later call with the same value is a no-op leaving the whole state
unchanged; a later call with a different value raises a semantic failure
when the recorded size is nonzero; but when the recorded size is 0 (falsy)
any later call re-records the new value without error. -/
theorem c9_font_size (chars : String → Option String) :
    (∀ (st : RenderState) (a : Int), st.font_size = none →
      step chars st ⟨"s", [.i a]⟩ = .ok (some ({ st with font_size := some a }, ""))) ∧
    (∀ (st : RenderState) (v : Int), st.font_size = some v →
      step chars st ⟨"s", [.i v]⟩ = .ok (some (st, ""))) ∧
    (∀ (st : RenderState) (v a : Int), st.font_size = some v → v ≠ 0 → a ≠ v →
      step chars st ⟨"s", [.i a]⟩ = .error .fontSizeSwitch) ∧
    (∀ (st : RenderState) (a : Int), st.font_size = some 0 →
      step chars st ⟨"s", [.i a]⟩ = .ok (some ({ st with font_size := some a }, ""))) := by
  refine ⟨?_, ?_, ?_, ?_⟩
  · intro st a h
    simp [step, TextOutput.s, h, pyTruthyInt]
  · intro st v h
    obtain ⟨it, res, hm, vm, pg, df, fo, fs, inc, ln, rc⟩ := st
    dsimp only at h
    subst h
    simp [step, TextOutput.s, pyTruthyInt]
  · intro st v a h hv ha
    simp [step, TextOutput.s, h, pyTruthyInt, hv]
    omega
  · intro st a h
    simp [step, TextOutput.s, h, pyTruthyInt]

/-- C6: for every horizontal-motion command (either aliased name h or H)
with argument a, in a state whose horizontal quantum is set and nonzero (so
that the Python modulus is defined): if a is not an exact multiple of the
quantum the interpreter raises a semantic failure; otherwise, if the
column-reset flag is armed it is cleared and nothing is emitted; otherwise
a run of (a / quantum) − previous-glyph-width spaces is emitted; and every
successful outcome leaves the previous-glyph-width counter unchanged. -/
theorem c6_horizontal_motion (chars : String → Option String)
    (st : RenderState) (q a : Int) (name : String)
    (hq : st.horiz_motion = some q) (hq0 : q ≠ 0)
    (hname : name = "h" ∨ name = "H") :
    (a.fmod q ≠ 0 → step chars st ⟨name, [.i a]⟩ = .error .horizQuantum) ∧
    (a.fmod q = 0 → st.reset_column = true →
      step chars st ⟨name, [.i a]⟩ =
        .ok (some ({ st with reset_column := false }, ""))) ∧
    (a.fmod q = 0 → st.reset_column = false →
      step chars st ⟨name, [.i a]⟩ =
        .ok (some (st,
          String.mk (List.replicate (a.fdiv q - st.horizontal_increment).toNat ' ')))) ∧
    (∀ (st' : RenderState) (out : String),
      step chars st ⟨name, [.i a]⟩ = .ok (some (st', out)) →
      st'.horizontal_increment = st.horizontal_increment) := by
  rcases hname with rfl | rfl <;>
    refine ⟨fun hm => by simp [step, TextOutput.h, hq, hq0, hm],
            fun hm hr => by simp [step, TextOutput.h, hq, hq0, hm, hr],
            fun hm hr => by simp [step, TextOutput.h, hq, hq0, hm, hr, pyStrRepeat],
            fun st' out hstep => ?_⟩ <;>
    · simp [step, TextOutput.h, hq, hq0] at hstep
      split_ifs at hstep <;> simp_all <;>
        (obtain ⟨h1, h2⟩ := hstep; subst h1; simp_all)

/-- C6 witness: horizontal motion by 48 with quantum 24 and
previous-glyph-width 0 emits two spaces and keeps the counter at 0. -/
theorem c6_horizontal_motion_witness :
    step noChars { initState with horiz_motion := some 24 } ⟨"h", [.i 48]⟩ =
      .ok (some ({ initState with horiz_motion := some 24 }, "  ")) :=
  (c6_horizontal_motion noChars { initState with horiz_motion := some 24 }
    24 48 "h" rfl (by decide) (Or.inl rfl)).2.2.1 (by decide) rfl

/-- C7: the column-reset flag is armed by the designated device-control
tag; an armed flag is consumed and cleared by exactly the next
horizontal-motion command, whose space emission is suppressed; a
horizontal-motion command reached with the flag cleared emits its spaces
normally; and no successfully processed command other than a
horizontal-motion command ever clears an armed flag. -/
theorem c7_column_reset (chars : String → Option String) :
    (∀ st : RenderState,
      step chars st ⟨"xX", [.s "devtag:.col 1\n"]⟩ =
        .ok (some ({ st with reset_column := true }, ""))) ∧
    (∀ (st : RenderState) (q a : Int), st.horiz_motion = some q → q ≠ 0 →
      a.fmod q = 0 → st.reset_column = true →
      step chars st ⟨"h", [.i a]⟩ =
        .ok (some ({ st with reset_column := false }, ""))) ∧
    (∀ (st : RenderState) (q a : Int), st.horiz_motion = some q → q ≠ 0 →
      a.fmod q = 0 → st.reset_column = false →
      step chars st ⟨"h", [.i a]⟩ =
        .ok (some (st,
          String.mk (List.replicate (a.fdiv q - st.horizontal_increment).toNat ' ')))) ∧
    (∀ (st : RenderState) (tok : Token) (st' : RenderState) (out : String),
      st.reset_column = true → tok.cmd ≠ "h" → tok.cmd ≠ "H" →
      step chars st tok = .ok (some (st', out)) → st'.reset_column = true) := by
  refine ⟨fun st => by simp [step, TextOutput.xX],
          fun st q a hq hq0 hm hr => by simp [step, TextOutput.h, hq, hq0, hm, hr],
          fun st q a hq hq0 hm hr => by
            simp [step, TextOutput.h, hq, hq0, hm, hr, pyStrRepeat],
          fun st tok st' out hreset hh hH hstep => ?_⟩
  obtain ⟨cmd, args⟩ := tok
  unfold step at hstep
  split at hstep <;>
    first
      | exact absurd rfl hh
      | exact absurd rfl hH
      | (simp only [TextOutput.t, TextOutput.h, TextOutput.noop, TextOutput.N,
           TextOutput.C, TextOutput.xT, TextOutput.xr, TextOutput.p,
           TextOutput.xf, TextOutput.f, TextOutput.s, TextOutput.V,
           TextOutput.xX, TextOutput.xs] at hstep;
         (repeat' split at hstep) <;> simp_all <;>
           (obtain ⟨h1, h2⟩ := hstep; subst h1; simp_all))
      | simp_all

/-- C7 witness: with the flag armed and quantum 24, horizontal motion by 48
emits nothing and clears the flag. -/
theorem c7_column_reset_witness :
    step noChars { initState with horiz_motion := some 24, reset_column := true }
      ⟨"h", [.i 48]⟩ =
      .ok (some ({ initState with horiz_motion := some 24, reset_column := false }, "")) :=
  (c7_column_reset noChars).2.1
    { initState with horiz_motion := some 24, reset_column := true }
    24 48 rfl (by decide) (by decide) rfl

/-- C8 counterexample: an error-free run in which the vertical line
position decreases at a vertical-motion command that is not a page command:
after V 80 the line position is 80, and the subsequent V 40 succeeds
(emitting no newline) and leaves the line position at 40. -/
theorem c8_counterexample :
    runTokens noChars initState
        [⟨"xT", [.s "utf8"]⟩, ⟨"xr", [.i 240, .i 24, .i 40]⟩, ⟨"V", [.i 80]⟩] =
      .ok (["", "", "\n"],
        { initState with
          initial_typesetter := some "utf8", resolution := some 240,
          horiz_motion := some 24, vert_motion := some 40, line := 80 }) ∧
    runTokens noChars initState
        [⟨"xT", [.s "utf8"]⟩, ⟨"xr", [.i 240, .i 24, .i 40]⟩, ⟨"V", [.i 80]⟩,
         ⟨"V", [.i 40]⟩] =
      .ok (["", "", "\n", ""],
        { initState with
          initial_typesetter := some "utf8", resolution := some 240,
          horiz_motion := some 24, vert_motion := some 40, line := 40 }) :=
  ⟨rfl, rfl⟩

/-- C8 amended: the vertical line position is written only by the
vertical-motion command, which sets it to exactly its argument — possibly
below its previous value, without error — by the page command, which resets
it to 0, and by a recording set-resolution command, which initialises it to
the vertical quantum; every other successfully processed command leaves it
unchanged.  Monotonicity is not enforced. -/
theorem c8_line_position (chars : String → Option String) :
    (∀ (st : RenderState) (q a : Int), st.vert_motion = some q → q ≠ 0 →
      a.fmod q = 0 →
      step chars st ⟨"V", [.i a]⟩ =
        .ok (some ({ st with line := a },
          String.mk (List.replicate (a.fdiv q - st.line.fdiv q).toNat '\n')))) ∧
    (∀ (st : RenderState) (a : Int),
      step chars st ⟨"p", [.i a]⟩ =
        .ok (some ({ st with page := some a, line := 0 }, ""))) ∧
    (∀ (st : RenderState) (tok : Token) (st' : RenderState) (out : String),
      tok.cmd ≠ "V" → tok.cmd ≠ "p" → tok.cmd ≠ "xr" →
      step chars st tok = .ok (some (st', out)) → st'.line = st.line) := by
  refine ⟨fun st q a hq hq0 hm => by
            simp [step, TextOutput.V, hq, hq0, hm, pyStrRepeat],
          fun st a => by simp [step, TextOutput.p],
          fun st tok st' out hV hp hxr hstep => ?_⟩
  obtain ⟨cmd, args⟩ := tok
  unfold step at hstep
  split at hstep <;>
    first
      | exact absurd rfl hV
      | exact absurd rfl hp
      | exact absurd rfl hxr
      | (simp only [TextOutput.t, TextOutput.h, TextOutput.noop, TextOutput.N,
           TextOutput.C, TextOutput.xT, TextOutput.xr, TextOutput.p,
           TextOutput.xf, TextOutput.f, TextOutput.s, TextOutput.V,
           TextOutput.xX, TextOutput.xs] at hstep;
         (repeat' split at hstep) <;> simp_all <;>
           (obtain ⟨h1, h2⟩ := hstep; subst h1; simp_all))
      | simp_all

/-- C8 witness: vertical motion to 40 from line position 80 with quantum 40
succeeds, emits nothing, and lowers the line position to 40. -/
theorem c8_line_position_witness :
    step noChars { initState with vert_motion := some 40, line := 80 }
      ⟨"V", [.i 40]⟩ =
      .ok (some ({ initState with vert_motion := some 40, line := 40 }, "")) :=
  (c8_line_position noChars).1 { initState with vert_motion := some 40, line := 80 }
    40 40 rfl (by decide) (by decide)

/-- C10: a horizontal-motion command whose argument is an exact multiple of
the (set, nonzero) horizontal quantum but whose quotient is strictly below
the current previous-glyph-width counter emits the empty fragment and does
not raise any error — the negative space count produces no output rather
than a failure. -/
theorem c10_negative_space_count (chars : String → Option String)
    (st : RenderState) (q a : Int) (name : String)
    (hq : st.horiz_motion = some q) (hq0 : q ≠ 0)
    (hname : name = "h" ∨ name = "H") (hm : a.fmod q = 0)
    (hlt : a.fdiv q < st.horizontal_increment) :
    step chars st ⟨name, [.i a]⟩ =
      .ok (some ({ st with reset_column := false }, "")) := by
  obtain ⟨it, res, hmo, vmo, pg, df, fo, fs, inc, ln, rc⟩ := st
  dsimp only at hq hlt
  subst hq
  have hnp : (a.fdiv q - inc).toNat = 0 := by omega
  rcases hname with rfl | rfl <;> cases rc <;>
    simp [step, TextOutput.h, hq0, hm, pyStrRepeat, hnp]

/-- C10 witness: horizontal motion by 0 with quantum 24 and
previous-glyph-width 2 (quotient 0 below 2) emits the empty fragment. -/
theorem c10_negative_space_count_witness :
    step noChars
      { initState with horiz_motion := some 24, horizontal_increment := 2 }
      ⟨"h", [.i 0]⟩ =
      .ok (some ({ initState with
                   horiz_motion := some 24,
                   horizontal_increment := 2,
                   reset_column := false }, "")) :=
  c10_negative_space_count noChars
    { initState with horiz_motion := some 24, horizontal_increment := 2 }
    24 0 "h" rfl (by decide) (Or.inl rfl) (by decide) (by decide)

/-- C9 witness: with a nonzero recorded size 12, a later call with the
different size 10 fails. -/
theorem c9_font_size_witness :
    step noChars { initState with font_size := some 12 } ⟨"s", [.i 10]⟩ =
      .error .fontSizeSwitch :=
  (c9_font_size noChars).2.2.1 { initState with font_size := some 12 } 12 10
    rfl (by decide) (by decide)

example : tokenizer 20 ("f".toList) = .ok [] := rfl

example : tokenizer 20 ("n 1".toList) = .ok [] := rfl

example : tokenizer 30 ("#a\n#b\nt x\n".toList) = .error (.unknownCmd '#') := rfl

example : tokenizer 30 ("#a\nt x\n".toList) = .ok [⟨"t", [.s "x"]⟩] := rfl

example : tokenizer 30 ("# only a comment\n".toList) = .error .indexError := rfl

example : tokenizer 80 ("x T utf8\nx r 240 24 40\ntHello\nV80\ntWorld\nx s\n".toList) =
    .ok [⟨"xT", [.s "utf8"]⟩, ⟨"xr", [.i 240, .i 24, .i 40]⟩, ⟨"t", [.s "Hello"]⟩,
         ⟨"V", [.i 80]⟩, ⟨"t", [.s "World"]⟩, ⟨"xs", []⟩] := rfl

example : tokenizer 40 ("x X devtag:.col 1\nh24\n".toList) =
    .ok [⟨"xX", [.s "devtag:.col 1\n"]⟩, ⟨"h", [.i 24]⟩] := rfl
